import Mathlib

/-!
# Verification of the video-backend format-selection and projection core

Shallow embedding of `src/app/core/downloader.py` (class `VideoDownloader`),
`src/app/config.py` (`Settings.MAX_DOWNLOAD_SIZE_MB`) and the response-model
constraint of `src/app/models/schemas.py` (`VideoInfoResponse.direct_url`
is a required field).

Modelling conventions:
- Python `dict.get(key)` values that may be `None` become `Option` fields;
  an absent key and a `None` value are conflated (no claim distinguishes them).
- Python string operations (`in`, `.lower()`, slicing) are modelled over
  `String` / `List Char`.
- Python floats are modelled exactly over `ℚ`; `round(x, 2)` is modelled as
  round-half-to-even of `x * 100` divided by 100 (Python's rounding rule,
  idealised to exact rational arithmetic).
- Python `list.sort(key=k, reverse=True)` is a stable descending sort; it is
  embedded as a stable insertion sort by the same key (stable sorts for a
  total preorder are unique, so this is the same function on lists).
- Raised exceptions become `Except` errors; `re.search` of an alternation of
  escaped literals is embedded as a disjunction of substring tests.
-/

namespace VideoBackend

/-! ## Python string primitives -/

/-- Does `needle` match at the head of `hay`? (helper for substring search). -/
def headMatch : List Char → List Char → Bool
  | [], _ => true
  | _ :: _, [] => false
  | a :: as, b :: bs => a == b && headMatch as bs

/-- `subIn needle hay` models Python `needle in hay` on character lists. -/
def subIn (needle : List Char) : List Char → Bool
  | [] => headMatch needle []
  | b :: bs => headMatch needle (b :: bs) || subIn needle bs

/-- Python `needle in hay` for strings. -/
def strIn (needle hay : String) : Bool := subIn needle.data hay.data

/-- Python `s.lower()` (character-wise, via `Char.toLower`). -/
def pyLower (s : String) : String := String.mk (s.data.map Char.toLower)

/-- Python `s.capitalize()`: first character upper-cased, rest lower-cased. -/
def pyCapitalize (s : String) : String :=
  match s.data with
  | [] => ""
  | c :: cs => String.mk (c.toUpper :: cs.map Char.toLower)

/-- Python `a or b` where `a` is an optional string (`None` and `""` are falsy). -/
def pyOrStr (a : Option String) (b : String) : String :=
  match a with
  | some s => if s ≠ "" then s else b
  | none => b

/-- Python `a or b` on two optional strings, keeping the optional result. -/
def pyOrOptStr (a b : Option String) : Option String :=
  match a with
  | some s => if s ≠ "" then some s else b
  | none => b

/-- Python `a or b` on optional natural numbers (`None` and `0` are falsy). -/
def pyOrNat (a b : Option Nat) : Option Nat :=
  match a with
  | some n => if n ≠ 0 then some n else b
  | none => b

/-! ## Python numeric primitives -/

/-- Round a rational to the nearest integer, ties to even (Python `round`). -/
def roundHalfEven (q : ℚ) : ℤ :=
  let f : ℤ := ⌊q⌋
  let r : ℚ := q - f
  if r < 1/2 then f
  else if 1/2 < r then f + 1
  else if f % 2 = 0 then f else f + 1

/-- Python `round(q, 2)`. -/
def round2 (q : ℚ) : ℚ := (roundHalfEven (q * 100) : ℚ) / 100

/-- Python `int(q)`: truncation toward zero. -/
def pyInt (q : ℚ) : ℤ := if 0 ≤ q then ⌊q⌋ else -⌊-q⌋

/-- Python `str(timedelta(seconds=n))` for a natural number of seconds:
`"[D day[s], ]H:MM:SS"`, hours unpadded and always present. -/
def pad2 (n : Nat) : String := if n < 10 then "0" ++ toString n else toString n

/-- The `H:MM:SS` core of `str(timedelta)` plus the day component. -/
def tdStr (n : Nat) : String :=
  let days := n / 86400
  let rem := n % 86400
  let core := toString (rem / 3600) ++ ":" ++ pad2 (rem % 3600 / 60) ++ ":" ++ pad2 (rem % 60)
  if days = 0 then core
  else if days = 1 then "1 day, " ++ core
  else toString days ++ " days, " ++ core

/-! ## Data model (from spec §3 and the dict shapes in `downloader.py`) -/

/-- A raw format descriptor as produced by the extractor (`fmt` dicts). -/
structure Fmt where
  format_id : Option String := none
  format_note : Option String := none
  ext : Option String := none
  quality : Option Int := none
  filesize : Option Nat := none
  height : Option Nat := none
  resolution : Option String := none
  fps : Option Nat := none
  vcodec : Option String := none
  acodec : Option String := none
  url : Option String := none
deriving DecidableEq

/-- The empty dict `{}` returned by `_select_best_format` on empty input:
every `.get` on it yields `None`. -/
def Fmt.empty : Fmt := {}

/-- The raw top-level metadata record (`info` dict from the extractor). -/
structure RawInfo where
  title : Option String := none
  duration : Option Nat := none
  thumbnail : Option String := none
  uploader : Option String := none
  channel : Option String := none
  view_count : Option Nat := none
  like_count : Option Nat := none
  description : Option String := none
  filesize : Option Nat := none
  url : Option String := none
  formats : List Fmt := []
deriving DecidableEq

/-- Platform tags, the keys of `PLATFORM_PATTERNS` in their dict order. -/
inductive Platform where
  | instagram
  | tiktok
  | youtube
deriving DecidableEq

/-- The lower-case platform name, the `PLATFORM_PATTERNS` key string. -/
def Platform.name : Platform → String
  | .instagram => "instagram"
  | .tiktok => "tiktok"
  | .youtube => "youtube"

/-- Errors raised by the embedded code paths. -/
inductive PyErr where
  | invalidURL (url : String)
  | fileTooLarge (size_mb : ℤ) (max_mb : ℤ)
  | validationError
deriving DecidableEq

/-- `Settings.MAX_DOWNLOAD_SIZE_MB` from `src/app/config.py`. -/
def MAX_DOWNLOAD_SIZE_MB : ℤ := 500

/-! ## Platform classifier (`detect_platform`, `PLATFORM_PATTERNS`) -/

/-- `re.search` of an alternation of escaped literals: some literal occurs. -/
def patMatch (lits : List String) (u : String) : Bool :=
  lits.any (fun s => strIn s u)

/-- `PLATFORM_PATTERNS`, each regex decomposed into its literal alternatives,
in the dict's insertion order. -/
def PLATFORM_PATTERNS : List (Platform × List String) :=
  [(Platform.instagram, ["instagram.com", "instagr.am"]),
   (Platform.tiktok, ["tiktok.com", "vm.tiktok.com"]),
   (Platform.youtube, ["youtube.com", "youtu.be"])]

/-- `detect_platform`: lower-case the URL, scan the pattern table in order,
raise `InvalidURLException(url)` when nothing matches. -/
def detect_platform (url : String) : Except PyErr Platform :=
  let u := pyLower url
  match PLATFORM_PATTERNS.find? (fun pr => patMatch pr.2 u) with
  | some pr => .ok pr.1
  | none => .error (.invalidURL url)

/-! ## Format selector (`_select_best_format`) -/

/-- `fmt.get('vcodec') != 'none'`: the descriptor has a video track. -/
def pyHasVideo (f : Fmt) : Bool := decide (f.vcodec ≠ some "none")

/-- `fmt.get('format_note', '').lower()`. -/
def noteLower (f : Fmt) : String := pyLower (f.format_note.getD "")

/-- The TikTok loop of `_select_best_format`: first format whose note
contains `download` or lacks `watermark`, and which has a video track. -/
def tiktokScan : List Fmt → Option Fmt
  | [] => none
  | f :: rest =>
    if strIn "download" (noteLower f) || !(strIn "watermark" (noteLower f)) then
      if f.vcodec ≠ some "none" then some f else tiktokScan rest
    else tiktokScan rest

/-- The TikTok acceptance condition, flattened to one predicate. -/
def tiktokPred (f : Fmt) : Bool :=
  (strIn "download" (noteLower f) || !(strIn "watermark" (noteLower f))) && pyHasVideo f

/-- The sort key `lambda x: (x.get('height') or 0, x.get('filesize') or 0)`. -/
def fmtKey (f : Fmt) : Nat × Nat := (f.height.getD 0, f.filesize.getD 0)

/-- Strict lexicographic order on sort keys (Python tuple `<`). -/
def keyLT (a b : Nat × Nat) : Prop := a.1 < b.1 ∨ (a.1 = b.1 ∧ a.2 < b.2)

instance (a b : Nat × Nat) : Decidable (keyLT a b) := by
  unfold keyLT; infer_instance

/-- Stable descending insert: `x` goes after exactly the elements with a
strictly larger key (so equal keys preserve original order). -/
def insDesc (x : Fmt) : List Fmt → List Fmt
  | [] => [x]
  | y :: ys => if keyLT (fmtKey x) (fmtKey y) then y :: insDesc x ys else x :: y :: ys

/-- Python `video_formats.sort(key=..., reverse=True)`: the stable
descending sort by `fmtKey`. -/
def pySortDesc : List Fmt → List Fmt
  | [] => []
  | x :: xs => insDesc x (pySortDesc xs)

/-- The shared default rule at the end of `_select_best_format`: keep the
video formats, stable-sort them descending by (height, filesize), return the
first; if there are none, return the first raw descriptor `f0`. -/
def defaultBest (f0 : Fmt) (rest : List Fmt) : Fmt :=
  match pySortDesc ((f0 :: rest).filter pyHasVideo) with
  | g :: _ => g
  | [] => f0

/-- `_select_best_format(formats, platform)`; the empty dict returned for an
empty list is `Fmt.empty`. -/
def select_best_format (formats : List Fmt) (platform : Platform) : Fmt :=
  match formats with
  | [] => Fmt.empty
  | f0 :: rest =>
    match (if platform = Platform.tiktok then tiktokScan (f0 :: rest) else none) with
    | some f => f
    | none => defaultBest f0 rest

/-! ## Metadata projector (`_parse_video_info`, `_parse_formats`) -/

/-- One entry of the frontend format list built by `_parse_formats`. -/
structure FmtSummary where
  format_id : Option String
  format_note : Option String
  ext : Option String
  quality : Option Int
  filesize : Option Nat
  filesize_mb : Option ℚ
  resolution : String
  fps : Option Nat
  vcodec : Option String
  acodec : Option String
deriving DecidableEq

/-- `f"{fmt.get('height', 'unknown')}p"`. -/
def heightLabel (h : Option Nat) : String :=
  match h with
  | some n => toString n ++ "p"
  | none => "unknownp"

/-- The summary dict built for one format inside `_parse_formats`. -/
def mkSummary (f : Fmt) : FmtSummary :=
  { format_id := f.format_id
    format_note := f.format_note
    ext := f.ext
    quality := f.quality
    filesize := f.filesize
    filesize_mb :=
      match f.filesize with
      | some n => if n ≠ 0 then some (round2 ((n : ℚ) / (1024 * 1024))) else none
      | none => none
    resolution := pyOrStr f.resolution (heightLabel f.height)
    fps := f.fps
    vcodec := f.vcodec
    acodec := f.acodec }

/-- `_parse_formats`: skip audio-only descriptors (`vcodec == 'none'`),
summarise the rest in their original order. -/
def parse_formats : List Fmt → List FmtSummary
  | [] => []
  | f :: rest =>
    if f.vcodec = some "none" then parse_formats rest
    else mkSummary f :: parse_formats rest

/-- The normalized record returned by `_parse_video_info` (the dict literal
at the end of that method). -/
structure ParsedInfo where
  title : String
  duration : Nat
  duration_string : Option String
  thumbnail : Option String
  direct_url : Option String
  platform : String
  uploader : Option String
  view_count : Option Nat
  like_count : Option Nat
  description : Option String
  filesize_mb : Option ℚ
  resolution : String
  ext : String
  formats : List FmtSummary
deriving DecidableEq

/-- The body of `_parse_video_info` after `best_format` has been computed
(the source computes `best_format = self._select_best_format(...)` inline;
this factors that single binding out so claims can quantify over the chosen
format). -/
def parseWithBest (info : RawInfo) (best_format : Fmt) (platform : Platform) : ParsedInfo :=
  let duration := info.duration.getD 0
  let duration_str := if duration ≠ 0 then some (tdStr duration) else none
  let filesize := pyOrNat best_format.filesize info.filesize
  let filesize_mb :=
    match filesize with
    | some n => if n ≠ 0 then some (round2 ((n : ℚ) / (1024 * 1024))) else none
    | none => none
  let direct_url := pyOrOptStr best_format.url info.url
  let available_formats := if info.formats.isEmpty then [] else parse_formats info.formats
  { title := info.title.getD "Unknown"
    duration := duration
    duration_string := duration_str
    thumbnail := info.thumbnail
    direct_url := direct_url
    platform := pyCapitalize platform.name
    uploader := pyOrOptStr info.uploader info.channel
    view_count := info.view_count
    like_count := info.like_count
    description :=
      match info.description with
      | some s => if s ≠ "" then some (s.take 500) else none
      | none => none
    filesize_mb := filesize_mb
    resolution := pyOrStr best_format.resolution (heightLabel best_format.height)
    ext := best_format.ext.getD "mp4"
    formats := available_formats.take 5 }

/-- `_parse_video_info(info, platform)`. -/
def parse_video_info (info : RawInfo) (platform : Platform) : ParsedInfo :=
  parseWithBest info (select_best_format info.formats platform) platform

/-! ## Size guard and response validation -/

/-- The file-size check inside `get_video_info`:
`filesize_mb = result.get('filesize_mb', 0)` followed by
`if filesize_mb and filesize_mb > max_size: raise FileTooLargeException(int(filesize_mb), max_size)`.
`None` and `0` are falsy, so they are never rejected. -/
def sizeGuard (filesize_mb : Option ℚ) (max_size : ℤ) : Except PyErr Unit :=
  match filesize_mb with
  | none => .ok ()
  | some q =>
    if q ≠ 0 ∧ (max_size : ℚ) < q then .error (.fileTooLarge (pyInt q) max_size)
    else .ok ()

/-- `VideoInfoResponse(success=True, **info)` from the route layer, reduced
to the one constraint the claims touch: `direct_url: str` is a required,
non-optional field of the response model (`src/app/models/schemas.py`), so
pydantic rejects a record whose `direct_url` is `None` with a generic
validation error. -/
def buildResponse (info : ParsedInfo) : Except PyErr ParsedInfo :=
  match info.direct_url with
  | some _ => .ok info
  | none => .error .validationError

/-- The pure core of `get_video_info`: classify the URL, parse the raw
record with the detected platform, enforce the size limit. -/
def get_video_info (url : String) (info : RawInfo) : Except PyErr ParsedInfo :=
  match detect_platform url with
  | .error e => .error e
  | .ok platform =>
    let result := parse_video_info info platform
    match sizeGuard result.filesize_mb MAX_DOWNLOAD_SIZE_MB with
    | .error e => .error e
    | .ok _ => .ok result

/-! ## Concrete fixture records -/

/-- A raw record with every field absent. -/
def rawEmpty : RawInfo := {}

/-- A raw record whose duration is 125 seconds. -/
def raw125 : RawInfo := { duration := some 125 }

/-- A chosen format reporting exactly 5 MiB. -/
def fmt5MB : Fmt := { filesize := some 5242880 }

/-- A chosen format reporting a zero byte size. -/
def fmtZero : Fmt := { filesize := some 0 }

/-- A raw record whose top-level filesize is 600 MiB. -/
def raw600 : RawInfo := { filesize := some 629145600 }

/-- A video-capable format (codec tag differs from the sentinel). -/
def fmtA : Fmt := { format_id := some "a", vcodec := some "avc1", height := some 480 }

/-- An audio-only format (codec tag is the "no video" sentinel). -/
def fmtNoVideo : Fmt := { format_id := some "audio", vcodec := some "none" }

end VideoBackend

deriving instance DecidableEq for Except

namespace VideoBackend

/-! ## Helper lemmas -/

/-- Rounding an integer-valued rational is the identity. -/
theorem rhe_intCast (n : ℤ) : roundHalfEven (n : ℚ) = n := by
  simp [roundHalfEven]

theorem keyLT_irrefl (a : Nat × Nat) : ¬ keyLT a a := by
  simp [keyLT]

theorem mem_insDesc {a x : Fmt} {l : List Fmt} : a ∈ insDesc x l ↔ a = x ∨ a ∈ l := by
  induction l with
  | nil => simp [insDesc]
  | cons y ys ih =>
    by_cases h : keyLT (fmtKey x) (fmtKey y)
    · simp only [insDesc, if_pos h, List.mem_cons, ih]
      tauto
    · simp only [insDesc, if_neg h, List.mem_cons]

theorem mem_pySortDesc {a : Fmt} {l : List Fmt} : a ∈ pySortDesc l ↔ a ∈ l := by
  induction l with
  | nil => simp [pySortDesc]
  | cons x xs ih => simp [pySortDesc, mem_insDesc, ih]

theorem length_insDesc (x : Fmt) (l : List Fmt) :
    (insDesc x l).length = l.length + 1 := by
  induction l with
  | nil => rfl
  | cons y ys ih =>
    by_cases h : keyLT (fmtKey x) (fmtKey y) <;> simp [insDesc, h, ih]

theorem length_pySortDesc (l : List Fmt) : (pySortDesc l).length = l.length := by
  induction l with
  | nil => rfl
  | cons x xs ih => simp [pySortDesc, length_insDesc, ih]

theorem pySortDesc_eq_nil_iff {l : List Fmt} : pySortDesc l = [] ↔ l = [] := by
  constructor
  · intro h
    have := length_pySortDesc l
    rw [h] at this
    exact List.length_eq_zero.mp this.symm
  · rintro rfl
    rfl

/-- Stability of the descending insert: inserting `x` never moves it in
front of an element with the same key, because only strictly larger keys
are skipped. -/
theorem filter_insDesc (x : Fmt) (l : List Fmt) (k : Nat × Nat) :
    (insDesc x l).filter (fun f => decide (fmtKey f = k))
      = if fmtKey x = k then x :: l.filter (fun f => decide (fmtKey f = k))
        else l.filter (fun f => decide (fmtKey f = k)) := by
  induction l with
  | nil =>
    by_cases hx : fmtKey x = k <;> simp [insDesc, List.filter, hx]
  | cons y ys ih =>
    by_cases h : keyLT (fmtKey x) (fmtKey y)
    · rw [show insDesc x (y :: ys) = y :: insDesc x ys from by simp [insDesc, h]]
      by_cases hx : fmtKey x = k
      · have hy : ¬ fmtKey y = k := by
          intro hyk
          rw [hx] at h
          rw [hyk] at h
          exact keyLT_irrefl k h
        simp [List.filter_cons, hx, hy, ih]
      · by_cases hy : fmtKey y = k <;> simp [List.filter_cons, hx, hy, ih]
    · rw [show insDesc x (y :: ys) = x :: y :: ys from by simp [insDesc, h]]
      by_cases hx : fmtKey x = k <;> by_cases hy : fmtKey y = k <;>
        simp [List.filter_cons, hx, hy]

/-- Stability of the full sort: the subsequence of entries with any fixed
key is untouched. -/
theorem filter_pySortDesc (l : List Fmt) (k : Nat × Nat) :
    (pySortDesc l).filter (fun f => decide (fmtKey f = k))
      = l.filter (fun f => decide (fmtKey f = k)) := by
  induction l with
  | nil => rfl
  | cons x xs ih =>
    by_cases hx : fmtKey x = k <;>
      simp [pySortDesc, filter_insDesc, hx, ih, List.filter_cons]

/-- The nested conditionals of the TikTok loop are one `find?`. -/
theorem tiktokScan_eq_find? (l : List Fmt) : tiktokScan l = l.find? tiktokPred := by
  induction l with
  | nil => rfl
  | cons f rest ih =>
    by_cases h1 : (strIn "download" (noteLower f) || !(strIn "watermark" (noteLower f))) = true
    · by_cases h2 : f.vcodec = some "none"
      · simp [tiktokScan, h1, h2, List.find?, tiktokPred, pyHasVideo, ih]
      · simp [tiktokScan, h1, h2, List.find?, tiktokPred, pyHasVideo, ih]
    · simp [tiktokScan, h1, List.find?, tiktokPred, pyHasVideo, ih,
        Bool.and_eq_true, decide_eq_true_eq]

/-- A format accepted by the TikTok scan has a video track. -/
theorem tiktokScan_some_video {l : List Fmt} {f : Fmt}
    (h : tiktokScan l = some f) : pyHasVideo f = true := by
  rw [tiktokScan_eq_find?] at h
  have := List.find?_some h
  simp only [tiktokPred, Bool.and_eq_true] at this
  exact this.2

/-- If no format has a video track, the TikTok scan finds nothing. -/
theorem tiktokScan_none_of_novideo {l : List Fmt}
    (h : ∀ f ∈ l, pyHasVideo f = false) : tiktokScan l = none := by
  rw [tiktokScan_eq_find?]
  rw [List.find?_eq_none]
  intro f hf
  simp [tiktokPred, h f hf]

/-- `_parse_formats` is exactly filter-then-map. -/
theorem parse_formats_eq (l : List Fmt) :
    parse_formats l = (l.filter pyHasVideo).map mkSummary := by
  induction l with
  | nil => rfl
  | cons f rest ih =>
    by_cases h : f.vcodec = some "none" <;>
      simp [parse_formats, h, List.filter_cons, pyHasVideo, ih]

/-! ## Claim theorems -/

/-- C1 (counterexample): on a raw record and chosen format that both lack a
URL, the projector does not fail at all — it returns a normalized record
whose `direct_url` is absent, contradicting the claim that it fails with a
`MissingDirectURL` error instead of producing such a record. -/
theorem C1_counterexample :
    Fmt.empty.url = none
    ∧ rawEmpty.url = none
    ∧ (parseWithBest rawEmpty Fmt.empty Platform.youtube).direct_url = none :=
  ⟨rfl, rfl, rfl⟩

/-- C1 (amended): whenever neither the chosen format nor the raw record has
a URL, `_parse_video_info` succeeds and yields a record with `direct_url`
absent; the absence is only rejected later, when the response model
(`VideoInfoResponse`, whose `direct_url` field is required) is constructed,
as a generic validation error — the code has no `MissingDirectURL` error. -/
theorem C1_missing_url_is_validation_error
    (raw : RawInfo) (best : Fmt) (p : Platform)
    (h1 : best.url = none) (h2 : raw.url = none) :
    (parseWithBest raw best p).direct_url = none
    ∧ buildResponse (parseWithBest raw best p) = .error PyErr.validationError := by
  have hurl : (parseWithBest raw best p).direct_url = none := by
    simp [parseWithBest, pyOrOptStr, h1, h2]
  refine ⟨hurl, ?_⟩
  simp [buildResponse, hurl]

/-- C1 witness: the amended theorem instantiated at concrete empty records. -/
theorem C1_witness :
    (parseWithBest rawEmpty Fmt.empty Platform.youtube).direct_url = none
    ∧ buildResponse (parseWithBest rawEmpty Fmt.empty Platform.youtube)
        = .error PyErr.validationError :=
  C1_missing_url_is_validation_error rawEmpty Fmt.empty Platform.youtube rfl rfl

/-- C2 (counterexample): a raw record with duration 125 seconds produces the
duration string `"0:02:05"` (Python `str(timedelta)` keeps a zero hours
component), not `"2:05"` as the claim states. -/
theorem C2_counterexample :
    raw125.duration = some 125
    ∧ (parseWithBest raw125 Fmt.empty Platform.youtube).duration_string ≠ some "2:05"
    ∧ (parseWithBest raw125 Fmt.empty Platform.youtube).duration_string = some "0:02:05" := by
  refine ⟨rfl, ?_, ?_⟩ <;> decide

/-- C2 (amended): an absent duration yields no string; a positive duration
below one day renders as `H:MM:SS` with the (unpadded) hours component
always present, even when it is zero; in particular duration 125 yields
`"0:02:05"`. -/
theorem C2_duration_string :
    (∀ (raw : RawInfo) (best : Fmt) (p : Platform), raw.duration = none →
      (parseWithBest raw best p).duration_string = none)
    ∧ (∀ (raw : RawInfo) (best : Fmt) (p : Platform) (d : Nat),
        raw.duration = some d → 0 < d → d < 86400 →
        (parseWithBest raw best p).duration_string =
          some (toString (d / 3600) ++ ":" ++ pad2 (d % 3600 / 60) ++ ":" ++ pad2 (d % 60)))
    ∧ (parseWithBest raw125 Fmt.empty Platform.youtube).duration_string = some "0:02:05" := by
  refine ⟨?_, ?_, by decide⟩
  · intro raw best p h
    simp [parseWithBest, h]
  · intro raw best p d h hpos hlt
    have hdays : d / 86400 = 0 := Nat.div_eq_of_lt hlt
    have hrem : d % 86400 = d := Nat.mod_eq_of_lt hlt
    simp [parseWithBest, h, hpos.ne', tdStr, hdays, hrem]

/-- C2 witness: the amended theorem applied at duration 125. -/
theorem C2_witness :
    (parseWithBest raw125 Fmt.empty Platform.youtube).duration_string =
      some (toString (125 / 3600) ++ ":" ++ pad2 (125 % 3600 / 60) ++ ":" ++ pad2 (125 % 60)) :=
  C2_duration_string.2.1 raw125 Fmt.empty Platform.youtube 125 rfl (by decide) (by decide)

/-- C4: the classifier, on the lower-cased URL, returns instagram when
`instagram.com` or `instagr.am` occurs, else tiktok when `tiktok.com` or
`vm.tiktok.com` occurs, else youtube when `youtube.com` or `youtu.be`
occurs, and otherwise fails with the unsupported-URL error — first-match
wins in the order instagram, tiktok, youtube. -/
theorem C4_classifier (url : String) :
    detect_platform url =
      (if strIn "instagram.com" (pyLower url) || strIn "instagr.am" (pyLower url) then
        .ok Platform.instagram
      else if strIn "tiktok.com" (pyLower url) || strIn "vm.tiktok.com" (pyLower url) then
        .ok Platform.tiktok
      else if strIn "youtube.com" (pyLower url) || strIn "youtu.be" (pyLower url) then
        .ok Platform.youtube
      else .error (PyErr.invalidURL url)) := by
  unfold detect_platform PLATFORM_PATTERNS patMatch
  cases h1 : strIn "instagram.com" (pyLower url) <;>
    cases h2 : strIn "instagr.am" (pyLower url) <;>
    cases h3 : strIn "tiktok.com" (pyLower url) <;>
    cases h4 : strIn "vm.tiktok.com" (pyLower url) <;>
    cases h5 : strIn "youtube.com" (pyLower url) <;>
    cases h6 : strIn "youtu.be" (pyLower url) <;>
    simp [List.find?, h1, h2, h3, h4, h5, h6]

/-- C5: the default rule's descending sort by (height, filesize), missing
values read as 0, is stable — among the video-capable descriptors, entries
sharing a sort key keep their input order (their filtered subsequence is
unchanged by the sort). -/
theorem C5_sort_stable (l : List Fmt) (k : Nat × Nat) :
    (pySortDesc (l.filter pyHasVideo)).filter (fun f => decide (fmtKey f = k))
      = (l.filter pyHasVideo).filter (fun f => decide (fmtKey f = k)) :=
  filter_pySortDesc (l.filter pyHasVideo) k

/-- C6: the size guard rejects with `FileTooLarge(actual, max)` exactly when
the known size strictly exceeds the configured maximum (whose default is
500): 501 against 500 is rejected as `FileTooLarge(501, 500)`, exactly 500
is accepted, and an unknown size is never rejected. -/
theorem C6_size_guard :
    MAX_DOWNLOAD_SIZE_MB = 500
    ∧ sizeGuard (some 501) MAX_DOWNLOAD_SIZE_MB = .error (PyErr.fileTooLarge 501 500)
    ∧ sizeGuard (some 500) MAX_DOWNLOAD_SIZE_MB = .ok ()
    ∧ (∀ m : ℤ, sizeGuard none m = .ok ())
    ∧ (∀ (q : ℚ) (m : ℤ), 0 ≤ m →
        (sizeGuard (some q) m ≠ .ok () ↔ (m : ℚ) < q)) := by
  refine ⟨rfl, ?_, ?_, fun m => rfl, ?_⟩
  · show sizeGuard (some 501) 500 = .error (PyErr.fileTooLarge 501 500)
    simp [sizeGuard, pyInt]
    norm_num
  · show sizeGuard (some 500) 500 = .ok ()
    simp [sizeGuard]
  · intro q m hm
    by_cases h : q ≠ 0 ∧ (m : ℚ) < q
    · simp [sizeGuard, h]
    · have hok : sizeGuard (some q) m = .ok () := by simp [sizeGuard, h]
      simp [hok]
      by_cases hq : q = 0
      · rw [hq]
        exact_mod_cast hm
      · exact not_lt.mp (not_and.mp h hq)

/-- C6 witness: the general boundary characterization applied at the
501-versus-500 instance. -/
theorem C6_witness :
    sizeGuard (some 501) 500 ≠ .ok () ↔ ((500 : ℤ) : ℚ) < 501 :=
  C6_size_guard.2.2.2.2 501 500 (by norm_num)

/-- C7: `filesize_mb` is the known byte size — the chosen format's size,
falling back to the record's top-level size — divided by 1024*1024 and
rounded to two decimals; a raw filesize of 5242880 bytes gives exactly 5.0
and no known size gives an absent value. (Python float arithmetic is
modelled exactly over ℚ.) -/
theorem C7_filesize_mb :
    (parseWithBest rawEmpty fmt5MB Platform.youtube).filesize_mb = some 5
    ∧ (∀ (raw : RawInfo) (best : Fmt) (p : Platform),
        best.filesize = none → raw.filesize = none →
        (parseWithBest raw best p).filesize_mb = none)
    ∧ (∀ (raw : RawInfo) (best : Fmt) (p : Platform) (n : Nat),
        best.filesize = some n → 0 < n →
        (parseWithBest raw best p).filesize_mb = some (round2 ((n : ℚ) / (1024 * 1024))))
    ∧ (∀ (raw : RawInfo) (best : Fmt) (p : Platform) (n : Nat),
        best.filesize = none → raw.filesize = some n → 0 < n →
        (parseWithBest raw best p).filesize_mb = some (round2 ((n : ℚ) / (1024 * 1024)))) := by
  have hround : round2 ((5242880 : ℚ) / (1024 * 1024)) = 5 := by
    have h : ((5242880 : ℚ) / (1024 * 1024)) * 100 = ((500 : ℤ) : ℚ) := by norm_num
    rw [round2, h, rhe_intCast]
    norm_num
  refine ⟨?_, ?_, ?_, ?_⟩
  · have : (parseWithBest rawEmpty fmt5MB Platform.youtube).filesize_mb =
        some (round2 ((5242880 : ℚ) / (1024 * 1024))) := by
      simp [parseWithBest, rawEmpty, fmt5MB, pyOrNat]
    rw [this, hround]
  · intro raw best p h1 h2
    simp [parseWithBest, pyOrNat, h1, h2]
  · intro raw best p n h1 hn
    simp [parseWithBest, pyOrNat, h1, hn.ne']
  · intro raw best p n h1 h2 hn
    simp [parseWithBest, pyOrNat, h1, h2, hn.ne']

/-- C7 witness: the fallback conjuncts applied at concrete records. -/
theorem C7_witness :
    (parseWithBest rawEmpty Fmt.empty Platform.youtube).filesize_mb = none
    ∧ (parseWithBest rawEmpty fmt5MB Platform.instagram).filesize_mb =
        some (round2 ((5242880 : ℚ) / (1024 * 1024))) :=
  ⟨C7_filesize_mb.2.1 rawEmpty Fmt.empty Platform.youtube rfl rfl,
   C7_filesize_mb.2.2.1 rawEmpty fmt5MB Platform.instagram 5242880 rfl (by decide)⟩

/-- C8: for TikTok the selector takes the first descriptor, in list order,
with a video track and an acceptable note (contains "download" or lacks
"watermark") — the scan is exactly `find?` of that predicate — and when no
descriptor qualifies it falls through to the shared default
highest-quality rule. -/
theorem C8_tiktok_rule :
    (∀ l : List Fmt, tiktokScan l = l.find? tiktokPred)
    ∧ (∀ (f0 : Fmt) (rest : List Fmt) (f : Fmt),
        (f0 :: rest).find? tiktokPred = some f →
        select_best_format (f0 :: rest) Platform.tiktok = f)
    ∧ (∀ (f0 : Fmt) (rest : List Fmt),
        (f0 :: rest).find? tiktokPred = none →
        select_best_format (f0 :: rest) Platform.tiktok = defaultBest f0 rest) := by
  refine ⟨tiktokScan_eq_find?, ?_, ?_⟩
  · intro f0 rest f hf
    have hs : tiktokScan (f0 :: rest) = some f := by
      rw [tiktokScan_eq_find?]
      exact hf
    simp [select_best_format, hs]
  · intro f0 rest hf
    have hs : tiktokScan (f0 :: rest) = none := by
      rw [tiktokScan_eq_find?]
      exact hf
    simp [select_best_format, hs]

/-- C8 witness: on a one-element list whose entry qualifies, the TikTok
rule picks it. -/
theorem C8_witness : select_best_format [fmtA] Platform.tiktok = fmtA :=
  C8_tiktok_rule.2.1 fmtA [] fmtA (by decide)

/-- C3: on a non-empty format list the selector returns a descriptor with a
video track whenever one exists; when every descriptor carries the
"no video" sentinel it returns the first descriptor of the list. -/
theorem C3_selector_video (formats : List Fmt) (p : Platform) (h : formats ≠ []) :
    ((∃ f ∈ formats, pyHasVideo f = true) → pyHasVideo (select_best_format formats p) = true)
    ∧ ((∀ f ∈ formats, pyHasVideo f = false) → select_best_format formats p = formats.head h) := by
  obtain ⟨f0, rest, rfl⟩ := List.exists_cons_of_ne_nil h
  have hsel : select_best_format (f0 :: rest) p =
      match (if p = Platform.tiktok then tiktokScan (f0 :: rest) else none) with
      | some f => f
      | none => defaultBest f0 rest := rfl
  constructor
  · rintro ⟨f, hf, hfv⟩
    cases hscan : (if p = Platform.tiktok then tiktokScan (f0 :: rest) else none) with
    | some g =>
      have hg : tiktokScan (f0 :: rest) = some g := by
        by_cases hp : p = Platform.tiktok
        · rw [if_pos hp] at hscan
          exact hscan
        · rw [if_neg hp] at hscan
          cases hscan
      rw [hsel, hscan]
      exact tiktokScan_some_video hg
    | none =>
      rw [hsel, hscan]
      show pyHasVideo (defaultBest f0 rest) = true
      unfold defaultBest
      cases hsort : pySortDesc ((f0 :: rest).filter pyHasVideo) with
      | nil =>
        have hfil : (f0 :: rest).filter pyHasVideo = [] := pySortDesc_eq_nil_iff.mp hsort
        have hmem : f ∈ (f0 :: rest).filter pyHasVideo := List.mem_filter.mpr ⟨hf, hfv⟩
        rw [hfil] at hmem
        cases hmem
      | cons g gs =>
        have hg : g ∈ pySortDesc ((f0 :: rest).filter pyHasVideo) := by
          rw [hsort]
          exact List.mem_cons_self g gs
        exact (List.mem_filter.mp (mem_pySortDesc.mp hg)).2
  · intro hall
    have hscan : tiktokScan (f0 :: rest) = none := tiktokScan_none_of_novideo hall
    have hfil : (f0 :: rest).filter pyHasVideo = [] := by
      apply List.filter_eq_nil_iff.mpr
      intro f hf
      simp [hall f hf]
    have hdef : defaultBest f0 rest = f0 := by
      unfold defaultBest
      rw [hfil]
      rfl
    by_cases hp : p = Platform.tiktok
    · rw [hsel, if_pos hp, hscan]
      exact hdef
    · rw [hsel, if_neg hp]
      exact hdef

/-- C3 witness: a singleton video list yields a video result; a singleton
sentinel-only list yields its first element. -/
theorem C3_witness :
    pyHasVideo (select_best_format [fmtA] Platform.youtube) = true
    ∧ select_best_format [fmtNoVideo] Platform.youtube = fmtNoVideo :=
  ⟨(C3_selector_video [fmtA] Platform.youtube (by simp)).1 ⟨fmtA, by simp, by decide⟩,
   (C3_selector_video [fmtNoVideo] Platform.youtube (by simp)).2 (by decide)⟩

/-- C9: the alternate-formats list in the normalized output is exactly the
video-capable descriptors in original input order, summarised and truncated
to the first 5 — so it never exceeds 5 entries and never contains a
descriptor with the "no video" sentinel. -/
theorem C9_alternate_formats (info : RawInfo) (best : Fmt) (p : Platform) :
    (parseWithBest info best p).formats
      = ((info.formats.filter pyHasVideo).map mkSummary).take 5
    ∧ (parseWithBest info best p).formats.length ≤ 5
    ∧ (parseWithBest info best p).formats.all
        (fun s => decide (s.vcodec ≠ some "none")) = true := by
  have h1 : (parseWithBest info best p).formats
      = ((info.formats.filter pyHasVideo).map mkSummary).take 5 := by
    by_cases h : info.formats.isEmpty
    · have hnil : info.formats = [] := List.isEmpty_iff.mp h
      simp [parseWithBest, h, hnil]
    · simp [parseWithBest, h, parse_formats_eq]
  refine ⟨h1, ?_, ?_⟩
  · rw [h1]
    exact List.length_take_le 5 _
  · rw [h1, List.all_eq_true]
    intro s hs
    have hs' : s ∈ (info.formats.filter pyHasVideo).map mkSummary :=
      List.take_subset _ _ hs
    obtain ⟨f, hf, rfl⟩ := List.mem_map.mp hs'
    have hv := (List.mem_filter.mp hf).2
    simpa [mkSummary, pyHasVideo] using hv

/-- C10 (counterexample): a chosen format reporting filesize 0 does not
force an absent `filesize_mb` — the zero is treated as missing and the
projector falls back to the record's top-level size (600 MiB here), which
the size guard then rejects, contradicting both halves of the claim. -/
theorem C10_counterexample :
    fmtZero.filesize = some 0
    ∧ (parseWithBest raw600 fmtZero Platform.youtube).filesize_mb = some 600
    ∧ sizeGuard (parseWithBest raw600 fmtZero Platform.youtube).filesize_mb
        MAX_DOWNLOAD_SIZE_MB = .error (PyErr.fileTooLarge 600 500) := by
  have h1 : (parseWithBest raw600 fmtZero Platform.youtube).filesize_mb = some 600 := by
    have hr : round2 ((629145600 : ℚ) / (1024 * 1024)) = 600 := by
      have h : ((629145600 : ℚ) / (1024 * 1024)) * 100 = ((60000 : ℤ) : ℚ) := by norm_num
      rw [round2, h, rhe_intCast]
      norm_num
    have hmb : (parseWithBest raw600 fmtZero Platform.youtube).filesize_mb
        = some (round2 ((629145600 : ℚ) / (1024 * 1024))) := by
      simp [parseWithBest, raw600, fmtZero, pyOrNat]
    rw [hmb, hr]
  refine ⟨rfl, h1, ?_⟩
  rw [h1]
  show sizeGuard (some 600) 500 = .error (PyErr.fileTooLarge 600 500)
  simp [sizeGuard, pyInt]
  norm_num

/-- C10 (amended): a chosen-format size of exactly 0 is conflated with an
absent chosen-format size: the projector's whole output is the same as if
the chosen format carried no size (it falls back to the record's top-level
size), and when that fallback is itself absent or 0 the output
`filesize_mb` is absent (not 0.0) and the size guard accepts. -/
theorem C10_zero_size_conflated (raw : RawInfo) (best : Fmt) (p : Platform)
    (h : best.filesize = some 0) :
    parseWithBest raw best p = parseWithBest raw { best with filesize := none } p
    ∧ ((raw.filesize = none ∨ raw.filesize = some 0) →
        (parseWithBest raw best p).filesize_mb = none
        ∧ sizeGuard (parseWithBest raw best p).filesize_mb MAX_DOWNLOAD_SIZE_MB
            = .ok ()) := by
  have heq : parseWithBest raw best p = parseWithBest raw { best with filesize := none } p := by
    simp [parseWithBest, pyOrNat, h]
  refine ⟨heq, ?_⟩
  rintro (hr | hr) <;>
  · have hmb : (parseWithBest raw best p).filesize_mb = none := by
      simp [parseWithBest, pyOrNat, h, hr]
    exact ⟨hmb, by rw [hmb]; rfl⟩

/-- C10 witness: the amended theorem instantiated at a zero-size chosen
format over a record with no top-level size. -/
theorem C10_witness :
    parseWithBest rawEmpty fmtZero Platform.youtube
      = parseWithBest rawEmpty { fmtZero with filesize := none } Platform.youtube
    ∧ (parseWithBest rawEmpty fmtZero Platform.youtube).filesize_mb = none :=
  ⟨(C10_zero_size_conflated rawEmpty fmtZero Platform.youtube rfl).1,
   ((C10_zero_size_conflated rawEmpty fmtZero Platform.youtube rfl).2 (Or.inl rfl)).1⟩

end VideoBackend
